import Mathlib

/-!
Verification development for the text-mining log-analysis app
(src/text-mining.py).

The program is a single Streamlit script that, for a user-supplied keyword
string and date range, issues Elasticsearch queries against two channels
(call transcriptions and support emails) and renders per-day histograms,
matched/total distinct-document counts, and a match percentage.

Shallow embedding conventions:
- Python dict literals passed as query bodies are embedded as `JValue` trees.
- The Elasticsearch client `es` is an abstract collaborator `EsClient`; the
  two response paths the program reads (`aggregations.daily_logs.buckets`
  and `aggregations.aggregations.value`) are the fields of `EsResponse`.
- Python exceptions become the `PyError` sum; a fallible computation returns
  `Except PyError _`, and exception propagation is the explicit match on
  `.error`.
- Streamlit widget reads (`st.date_input`, `st.text_input`) become function
  parameters; `st.write`/chart outputs are collected in `RenderedOutput`.
- Python `round(x, 2)` (round half to even at two decimals) is modelled over
  `ℚ` by `py_round2`.
-/

attribute [local semireducible] Rat.mul Rat.add Rat.sub Rat.inv

/-- A JSON-like value, embedding the Python dict literals the script passes
to `es.search` as query bodies. -/
inductive JValue where
  | str : String → JValue
  | num : Int → JValue
  | arr : List JValue → JValue
  | obj : List (String × JValue) → JValue

/-- Key lookup in an object node, embedding Python `d[key]` on dicts
(successful case; a missing key is `none`). -/
def JValue.lookup : JValue → String → Option JValue
  | .obj kvs, key => List.lookup key kvs
  | _, _ => none

/-- Python exceptions relevant to the script. -/
inductive PyError where
  | zeroDivisionError : PyError
  | indexError : PyError
  | nameError : PyError
  | backendError : String → PyError
  deriving DecidableEq

/-- A calendar date as produced by the `st.date_input` widget. -/
structure Date where
  year : Nat
  month : Nat
  day : Nat
  deriving DecidableEq

/-- Decimal rendering of a natural number left-padded with zeros to `width`
digits, as Python `date.isoformat` does for year/month/day. -/
def natPad (width n : Nat) : String :=
  let s := Nat.repr n
  if s.length < width then String.mk (List.replicate (width - s.length) '0') ++ s else s

/-- Python `date.isoformat()`: `YYYY-MM-DD`. -/
def Date.isoformat (d : Date) : String :=
  natPad 4 d.year ++ "-" ++ natPad 2 d.month ++ "-" ++ natPad 2 d.day

/-- `pick_date_range` (src/text-mining.py:50-55): reads two dates from the
date widgets (here: the two parameters) and returns them ISO-formatted.
No validation is performed. -/
def pick_date_range (date_start date_end : Date) : String × String :=
  (date_start.isoformat, date_end.isoformat)

/-- Python `str.split(",")` over the character list: cut at every comma,
keeping empty pieces; the empty string yields one empty piece. -/
def splitCommaAux : List Char → List Char → List (List Char)
  | [], acc => [acc.reverse]
  | c :: cs, acc =>
    if c = ',' then acc.reverse :: splitCommaAux cs [] else splitCommaAux cs (c :: acc)

/-- Python `str.strip()`: remove leading and trailing whitespace. -/
def stripChars (cs : List Char) : List Char :=
  ((cs.dropWhile Char.isWhitespace).reverse.dropWhile Char.isWhitespace).reverse

/-- `get_user_input` (src/text-mining.py:58-70): splits the raw text-box
string on a comma and strips whitespace from each piece. -/
def get_user_input (user_input : String) : List String :=
  (splitCommaAux user_input.data []).map (fun cs => String.mk (stripChars cs))

/-- Python list indexing `l[i]`, raising `IndexError` when out of range. -/
def pyIndex {α : Type} (l : List α) (i : Nat) : Except PyError α :=
  match l.get? i with
  | some x => .ok x
  | none => .error .indexError

/-- The query-string construction of `generate_content`
(src/text-mining.py:257): the Python format string joining
`user_input[0]` and `user_input[1]` with the literal text " and ". -/
def make_query_str (user_input : List String) : Except PyError String :=
  match pyIndex user_input 0, pyIndex user_input 1 with
  | .ok t0, .ok t1 => .ok (t0 ++ " and " ++ t1)
  | .error e, _ => .error e
  | _, .error e => .error e

/-- Modelled from the spec (section 4.1), not from the source: the spec definition of
`to_query_string` joins the ENTIRE ordered sequence of terms with the
literal lowercase connective " and ". Used only to compare the specification
claimed join against the source first-two-terms join. -/
def spec_to_query_string (terms : List String) : String :=
  String.intercalate " and " terms

/-- Round half to even of a rational, as Python `round` does (ideal-value
model of the float computation). -/
def py_round_int (x : ℚ) : ℤ :=
  let f : ℤ := x.num.fdiv (x.den : ℤ)
  let frac : ℚ := x - (f : ℚ)
  if frac < 1/2 then f
  else if 1/2 < frac then f + 1
  else if f % 2 = 0 then f else f + 1

/-- Python `round(x, 2)`. -/
def py_round2 (x : ℚ) : ℚ :=
  ((py_round_int (x * 100) : ℤ) : ℚ) / 100

/-- `percentage_of_total_logs` (src/text-mining.py:87-97):
`round((partial / total) * 100, 2)`; the Python `/` raises
`ZeroDivisionError` when `total == 0`. In the source the first parameter is
named `partial`, a Lean keyword, hence `partial_count` here. -/
def percentage_of_total_logs (partial_count total : ℤ) : Except PyError ℚ :=
  if total = 0 then .error .zeroDivisionError
  else .ok (py_round2 ((partial_count : ℚ) / (total : ℚ) * 100))

/-- One day bucket of the `daily_logs` date-histogram aggregation, with the
two fields the script reads (src/text-mining.py:146-147). -/
structure Bucket where
  key_as_string : String
  doc_count : Int

/-- The parts of an `es.search` response the script reads:
`res["aggregations"]["daily_logs"]["buckets"]` in `obtain_matching_logs` and
`res["aggregations"]["aggregations"]["value"]` in the two cardinality
functions. -/
structure EsResponse where
  daily_logs_buckets : List Bucket
  aggregations_value : Int

/-- The Elasticsearch client collaborator: `es.search(index=..., body=...)`.
A raised exception (network, auth, timeout) is an `.error`. -/
structure EsClient where
  search : String → JValue → Except PyError EsResponse

/-- The `query_string` clause literal `{"query_string": {"query": query_str}}`
(src/text-mining.py:124-128). Note it names no document field. -/
def query_string_clause (query_str : String) : JValue :=
  .obj [("query_string", .obj [("query", .str query_str)])]

/-- The range clause literal
`{"range": {range_keyword: {"gte": date_range[0], "lt": date_range[1]}}}`
(src/text-mining.py:129-136). -/
def range_clause (range_keyword gte lt : String) : JValue :=
  .obj [("range", .obj [(range_keyword, .obj [("gte", .str gte), ("lt", .str lt)])])]

/-- The search body of `obtain_matching_logs` (src/text-mining.py:119-143). -/
def search_body (query_str : String) (date_range : String × String)
    (range_keyword field_main : String) : JValue :=
  .obj [
    ("_source", .arr [.str range_keyword, .str field_main]),
    ("query", .obj [("bool", .obj [("must", .arr [
      query_string_clause query_str,
      range_clause range_keyword date_range.1 date_range.2])])]),
    ("aggs", .obj [("daily_logs", .obj [("date_histogram", .obj [
      ("field", .str range_keyword), ("fixed_interval", .str "1d")])])])]

/-- The search body of `cardinality_matched_logs` (src/text-mining.py:171-192):
same boolean filter, plus a cardinality aggregation on the `.keyword`
sub-field of the main text field. -/
def cardinality_matched_body (query_str : String) (date_range : String × String)
    (range_keyword field_main : String) : JValue :=
  .obj [
    ("query", .obj [("bool", .obj [("must", .arr [
      query_string_clause query_str,
      range_clause range_keyword date_range.1 date_range.2])])]),
    ("aggs", .obj [("aggregations", .obj [("cardinality", .obj [
      ("field", .str (field_main ++ ".keyword"))])])])]

/-- The search body of `cardinality_all_logs` (src/text-mining.py:218-234):
only the range clause — the `query_str` parameter of that function is not
used anywhere in this body. -/
def cardinality_all_body (date_range : String × String)
    (range_keyword field_main : String) : JValue :=
  .obj [
    ("query", .obj [("bool", .obj [("must", .arr [
      range_clause range_keyword date_range.1 date_range.2])])]),
    ("aggs", .obj [("aggregations", .obj [("cardinality", .obj [
      ("field", .str (field_main ++ ".keyword"))])])])]

/-- Python dict assignment `d[k] = v`: overwrite in place when the key is
present (keeping its position), append otherwise. -/
def dictInsert (d : List (String × Int)) (k : String) (v : Int) : List (String × Int) :=
  if k ∈ d.map Prod.fst then d.map (fun p => if p.1 = k then (p.1, v) else p)
  else d ++ [(k, v)]

/-- The result-extraction loop of `obtain_matching_logs`
(src/text-mining.py:145-148): build the histogram dict
`{bucket["key_as_string"]: bucket["doc_count"]}` in bucket order. -/
def histogram_from_buckets (buckets : List Bucket) : List (String × Int) :=
  buckets.foldl (fun d b => dictInsert d b.key_as_string b.doc_count) []

/-- `obtain_matching_logs` (src/text-mining.py:100-148). -/
def obtain_matching_logs (es : EsClient) (index_name query_str : String)
    (date_range : String × String) (range_keyword field_main : String) :
    Except PyError (List (String × Int)) :=
  match es.search index_name (search_body query_str date_range range_keyword field_main) with
  | .error e => .error e
  | .ok res => .ok (histogram_from_buckets res.daily_logs_buckets)

/-- `cardinality_matched_logs` (src/text-mining.py:151-196). -/
def cardinality_matched_logs (es : EsClient) (index_name query_str : String)
    (date_range : String × String) (range_keyword field_main : String) :
    Except PyError Int :=
  match es.search index_name (cardinality_matched_body query_str date_range range_keyword field_main) with
  | .error e => .error e
  | .ok res => .ok res.aggregations_value

/-- `cardinality_all_logs` (src/text-mining.py:199-237). The `query_str`
parameter is accepted (as in the source) but unused: the body contains only
the range clause. -/
def cardinality_all_logs (es : EsClient) (index_name query_str : String)
    (date_range : String × String) (range_keyword field_main : String) :
    Except PyError Int :=
  match es.search index_name (cardinality_all_body date_range range_keyword field_main) with
  | .error e => .error e
  | .ok res => .ok res.aggregations_value

/-- The outputs the script renders per run of `generate_content`: the two
histogram charts, the matched counts and percentages written in `col2`, and
the two keyword strings echoed there. -/
structure RenderedOutput where
  calls_histogram : List (String × Int)
  emails_histogram : List (String × Int)
  matching_call_logs : Int
  call_percentage : ℚ
  matching_email_logs : Int
  email_percentage : ℚ
  keyword0 : String
  keyword1 : String

/-- `generate_content` (src/text-mining.py:240-322), with the Streamlit
widget reads as parameters. The match ladder is Python exception
propagation: the first raised exception aborts everything. Note the source
has no try/except: nothing is caught. The `else` branch for an empty list
models the `NameError` that `col2` would raise on the variables never
assigned in `col1` (unreachable: `get_user_input` never returns `[]`). -/
def generate_content (es : EsClient) (date_start date_end : Date) (raw : String) :
    Except PyError RenderedOutput :=
  let dates := pick_date_range date_start date_end
  let user_input := get_user_input raw
  if user_input.isEmpty then .error .nameError
  else
    match make_query_str user_input with
    | .error e => .error e
    | .ok query_str =>
      match obtain_matching_logs es "transcriptions_index" query_str dates "called_at" "utterance" with
      | .error e => .error e
      | .ok res =>
        match cardinality_matched_logs es "transcriptions_index" query_str dates "called_at" "utterance" with
        | .error e => .error e
        | .ok matching_call_logs =>
          match cardinality_all_logs es "transcriptions_index" query_str dates "called_at" "utterance" with
          | .error e => .error e
          | .ok all_call_logs =>
            match obtain_matching_logs es "intercoms_index" query_str dates "created_at" "body" with
            | .error e => .error e
            | .ok res2 =>
              match cardinality_matched_logs es "intercoms_index" query_str dates "created_at" "body" with
              | .error e => .error e
              | .ok matching_email_logs =>
                match cardinality_all_logs es "intercoms_index" query_str dates "created_at" "body" with
                | .error e => .error e
                | .ok all_email_logs =>
                  match pyIndex user_input 0, pyIndex user_input 1 with
                  | .error e, _ => .error e
                  | _, .error e => .error e
                  | .ok kw0, .ok kw1 =>
                    match percentage_of_total_logs matching_call_logs all_call_logs with
                    | .error e => .error e
                    | .ok call_pct =>
                      match percentage_of_total_logs matching_email_logs all_email_logs with
                      | .error e => .error e
                      | .ok email_pct =>
                        .ok ⟨res, res2, matching_call_logs, call_pct,
                             matching_email_logs, email_pct, kw0, kw1⟩

/-- A client that answers every query with the same fixed response. -/
def mkConstClient (buckets : List Bucket) (v : Int) : EsClient :=
  ⟨fun _idx _body => .ok ⟨buckets, v⟩⟩

/-- A client that raises on the calls channel (`transcriptions_index`) and
answers every email-channel query successfully with response `r`. -/
def failCallsClient (e : PyError) (r : EsResponse) : EsClient :=
  ⟨fun idx _body => if idx = "transcriptions_index" then .error e else .ok r⟩

/-- A client that answers every calls-channel query successfully with
response `r` and raises on the email channel (`intercoms_index`). -/
def failEmailsClient (e : PyError) (r : EsResponse) : EsClient :=
  ⟨fun idx _body => if idx = "intercoms_index" then .error e else .ok r⟩

/-- Extract the first must-clause query_string text from a query body, if
any. Used by `probeClient` to observe which query string a body carries. -/
def bodyQueryString (body : JValue) : Option String :=
  match (((body.lookup "query").bind (fun j => j.lookup "bool")).bind
      (fun j => j.lookup "must")) with
  | some (.arr (c :: _)) =>
    match (c.lookup "query_string").bind (fun j => j.lookup "query") with
    | some (.str s) => some s
    | _ => none
  | _ => none

/-- The must-clause list of a query body: path query.bool.must. -/
def mustClauses (body : JValue) : Option JValue :=
  ((body.lookup "query").bind (fun j => j.lookup "bool")).bind (fun j => j.lookup "must")

/-- The field of the cardinality aggregation of a query body: path
aggs.aggregations.cardinality.field. -/
def cardAggFieldVal (body : JValue) : Option JValue :=
  (((body.lookup "aggs").bind (fun j => j.lookup "aggregations")).bind
    (fun j => j.lookup "cardinality")).bind (fun j => j.lookup "field")

/-- A test client observing the query string each body carries: it answers
with cardinality 4 exactly when the text clause of the body is the
degenerate query " and ", and 9 otherwise (in particular for bodies with no
text clause). -/
def probeClient : EsClient :=
  ⟨fun _idx body =>
    match bodyQueryString body with
    | some q => if q = " and " then .ok ⟨[], 4⟩ else .ok ⟨[], 9⟩
    | none => .ok ⟨[], 9⟩⟩

lemma dictInsert_of_not_mem (d : List (String × Int)) (k : String) (v : Int)
    (h : k ∉ d.map Prod.fst) : dictInsert d k v = d ++ [(k, v)] := by
  unfold dictInsert
  rw [if_neg h]

lemma dictInsert_keys_of_mem (d : List (String × Int)) (k : String) (v : Int)
    (h : k ∈ d.map Prod.fst) : (dictInsert d k v).map Prod.fst = d.map Prod.fst := by
  unfold dictInsert
  rw [if_pos h, List.map_map]
  have hfn : (Prod.fst ∘ fun p : String × Int => if p.1 = k then (p.1, v) else p) = Prod.fst := by
    funext p
    by_cases hp : p.1 = k <;> simp [hp]
  rw [hfn]

lemma dictInsert_keys_nodup (d : List (String × Int)) (k : String) (v : Int)
    (hd : (d.map Prod.fst).Nodup) : ((dictInsert d k v).map Prod.fst).Nodup := by
  by_cases h : k ∈ d.map Prod.fst
  · rw [dictInsert_keys_of_mem d k v h]
    exact hd
  · rw [dictInsert_of_not_mem d k v h, List.map_append]
    refine List.Nodup.append hd (List.nodup_singleton _) ?_
    intro a ha hb
    rw [List.map_singleton, List.mem_singleton] at hb
    subst hb
    exact h ha

lemma foldl_dictInsert_append (bs : List Bucket) :
    ∀ d : List (String × Int),
      (∀ b ∈ bs, b.key_as_string ∉ d.map Prod.fst) →
      (bs.map Bucket.key_as_string).Nodup →
      List.foldl (fun d b => dictInsert d b.key_as_string b.doc_count) d bs
        = d ++ bs.map (fun b => (b.key_as_string, b.doc_count)) := by
  induction bs with
  | nil => intro d _ _; simp
  | cons b bs ih =>
    intro d hfresh hnodup
    rw [List.foldl_cons, dictInsert_of_not_mem d _ _ (hfresh b (List.mem_cons_self b bs))]
    rw [ih (d ++ [(b.key_as_string, b.doc_count)]) ?_ (List.nodup_cons.mp hnodup).2]
    · simp
    · intro b' hb'
      have h1 : b'.key_as_string ∉ d.map Prod.fst := hfresh b' (List.mem_cons_of_mem _ hb')
      have h2 : b'.key_as_string ≠ b.key_as_string := by
        intro he
        exact (List.nodup_cons.mp hnodup).1 (he ▸ List.mem_map_of_mem Bucket.key_as_string hb')
      simp [h1, h2]

lemma foldl_dictInsert_keys_nodup (bs : List Bucket) :
    ∀ d : List (String × Int), (d.map Prod.fst).Nodup →
      ((List.foldl (fun d b => dictInsert d b.key_as_string b.doc_count) d bs).map Prod.fst).Nodup := by
  induction bs with
  | nil => intro d hd; simpa using hd
  | cons b bs ih =>
    intro d hd
    rw [List.foldl_cons]
    exact ih _ (dictInsert_keys_nodup d _ _ hd)

/-- C1 counterexample: an execution with zero total documents in range
(the all-logs cardinality answers 0) in which the zero-total condition IS
surfaced as a crash: generate_content propagates the division-by-zero error
uncaught, contradicting the claim that a "no data" fallback is rendered. -/
theorem zero_total_crash_counterexample :
    generate_content (mkConstClient [⟨"2024-01-05", 1⟩] 0) ⟨2024, 1, 1⟩ ⟨2024, 2, 1⟩ "refund, delay"
      = .error .zeroDivisionError := by rfl

/-- C1 (amended): percentage_of_total_logs signals the division-by-zero
error whenever total == 0, but the orchestration layer has no handler: for
an input whose date range holds zero total documents, generate_content
propagates the error as a crash; no "no data" fallback exists. -/
theorem division_by_zero_uncaught :
    (∀ partial_count : ℤ, percentage_of_total_logs partial_count 0 = .error .zeroDivisionError)
    ∧ generate_content (mkConstClient [] 0) ⟨2024, 1, 1⟩ ⟨2024, 1, 31⟩ "refund, delay"
      = .error .zeroDivisionError :=
  ⟨fun _ => by rfl, by rfl⟩

/-- C2 counterexample: building the range from (2024-02-01, 2024-01-01),
where start > end, raises nothing: pick_date_range returns the formatted
inverted pair, and a full run over a benign backend completes successfully,
so backend queries ARE issued with the inverted bounds. -/
theorem inverted_range_accepted_counterexample :
    pick_date_range ⟨2024, 2, 1⟩ ⟨2024, 1, 1⟩ = ("2024-02-01", "2024-01-01")
    ∧ generate_content (mkConstClient [⟨"2024-01-15", 5⟩] 7) ⟨2024, 2, 1⟩ ⟨2024, 1, 1⟩ "refund, delay"
      = .ok ⟨[("2024-01-15", 5)], [("2024-01-15", 5)], 7, 100, 7, 100, "refund", "delay"⟩ :=
  ⟨by rfl, by rfl⟩

/-- C2 (amended): pick_date_range performs no validation at all: for every
pair of dates, including start > end, it returns the ISO-formatted pair
unchanged (the total function cannot fail), and the query pipeline runs with
the inverted bounds; no InvalidRangeError exists in the program. -/
theorem pick_date_range_no_validation :
    (∀ ds de : Date, pick_date_range ds de = (ds.isoformat, de.isoformat))
    ∧ generate_content (mkConstClient [⟨"2024-01-15", 5⟩] 4) ⟨2024, 2, 1⟩ ⟨2024, 1, 1⟩ "refund, delay"
      = .ok ⟨[("2024-01-15", 5)], [("2024-01-15", 5)], 4, 100, 4, 100, "refund", "delay"⟩ :=
  ⟨fun _ _ => rfl, by rfl⟩

/-- C3 counterexample: the raw input " , " parses to two empty terms — zero
usable terms — yet no EmptyInputError is raised: the run completes and the
degenerate query string " and " is sent to the backend (probeClient answers
cardinality 4 exactly when it receives a body whose text clause is " and ",
and that 4 shows up in the rendered output). -/
theorem empty_terms_reach_backend_counterexample :
    get_user_input " , " = ["", ""]
    ∧ generate_content probeClient ⟨2024, 1, 1⟩ ⟨2024, 1, 31⟩ " , "
      = .ok ⟨[], [], 4, 1111/25, 4, 1111/25, "", ""⟩ :=
  ⟨by rfl, by rfl⟩

/-- C3 (amended): no EmptyInputError exists. Raw input parsing to fewer than
two pieces (empty or whitespace-only input) crashes with IndexError while
the query string is built — before any backend query, but with the wrong
error for the wrong reason — while input with two or more pieces that are
all empty (e.g. " , ") passes the non-empty-list check and the degenerate
expression " and " IS sent to the backend. -/
theorem empty_input_behavior (es : EsClient) (ds de : Date) :
    generate_content es ds de "" = .error .indexError
    ∧ generate_content es ds de "   " = .error .indexError
    ∧ generate_content probeClient ds de ","
      = .ok ⟨[], [], 4, 1111/25, 4, 1111/25, "", ""⟩ :=
  ⟨rfl, rfl, rfl⟩

/-- C4 counterexample: for the three-term input "a, b, c" the query string
built by the code is "a and b" — only the first two terms — not the
join of the entire sequence "a and b and c" claimed by the spec. -/
theorem query_string_drops_third_term_counterexample :
    make_query_str (get_user_input "a, b, c") = .ok "a and b"
    ∧ spec_to_query_string (get_user_input "a, b, c") = "a and b and c"
    ∧ "a and b" ≠ "a and b and c" :=
  ⟨by rfl, by rfl, by decide⟩

/-- C4 (amended): parsing splits the raw input on commas and trims each
piece, keeping empties; the query string joins only the FIRST TWO terms
with " and " (whenever the parse yields at least two), dropping any
further terms; parse of "refund, delay" gives the two terms and query
string "refund and delay" as claimed. -/
theorem query_join_uses_first_two_terms (raw t0 t1 : String) (rest : List String)
    (h : get_user_input raw = t0 :: t1 :: rest) :
    make_query_str (get_user_input raw) = .ok (t0 ++ " and " ++ t1)
    ∧ get_user_input "refund, delay" = ["refund", "delay"]
    ∧ make_query_str ["refund", "delay"] = .ok "refund and delay"
    ∧ get_user_input " a ,, b " = ["a", "", "b"] := by
  refine ⟨?_, by rfl, by rfl, by rfl⟩
  rw [h]
  rfl

/-- C4 witness: the amended theorem applied at raw = "refund, delay". -/
theorem query_join_uses_first_two_terms_witness :
    make_query_str (get_user_input "refund, delay") = .ok ("refund" ++ " and " ++ "delay")
    ∧ get_user_input "refund, delay" = ["refund", "delay"]
    ∧ make_query_str ["refund", "delay"] = .ok "refund and delay"
    ∧ get_user_input " a ,, b " = ["a", "", "b"] :=
  query_join_uses_first_two_terms "refund, delay" "refund" "delay" [] (by rfl)

/-- C5 counterexample: the calls channel times out while the email channel
would answer every query successfully, yet the whole run is a total
failure: no valid ChannelResult is reported for the succeeding channel. -/
theorem channel_failure_total_counterexample :
    generate_content (failCallsClient (.backendError "timeout") ⟨[⟨"2024-01-03", 2⟩], 7⟩)
        ⟨2024, 1, 1⟩ ⟨2024, 1, 31⟩ "refund, delay"
      = .error (.backendError "timeout") := by rfl

/-- C5 (amended): the orchestrator has no per-channel error handling: the
two channels are computed sequentially and the first raised backend error
aborts the entire computation, whichever channel fails, even when every
query of the other channel would succeed. -/
theorem channel_failure_aborts_both (e : PyError) (r : EsResponse) (ds de : Date) :
    generate_content (failCallsClient e r) ds de "refund, delay" = .error e
    ∧ generate_content (failEmailsClient e r) ds de "refund, delay" = .error e :=
  ⟨rfl, rfl⟩

/-- C6: for matched >= 0 and total > 0, percentage_of_total_logs is exactly
round(matched/total*100, 2) (round half to even, modelled over the
rationals); in particular percentage(0, N) = 0, percentage(N, N) = 100,
and percentage(45, 300) = 15. -/
theorem percentage_matches_rounding_formula (matched total : ℤ)
    (hm : 0 ≤ matched) (ht : 0 < total) :
    percentage_of_total_logs matched total
      = .ok (py_round2 ((matched : ℚ) / (total : ℚ) * 100))
    ∧ percentage_of_total_logs 0 total = .ok 0
    ∧ percentage_of_total_logs total total = .ok 100
    ∧ percentage_of_total_logs 45 300 = .ok 15 := by
  have ht0 : total ≠ 0 := ne_of_gt ht
  have htq : (total : ℚ) ≠ 0 := Int.cast_ne_zero.mpr ht0
  refine ⟨?_, ?_, ?_, by rfl⟩
  · unfold percentage_of_total_logs
    rw [if_neg ht0]
  · unfold percentage_of_total_logs
    rw [if_neg ht0]
    have h0 : ((0 : ℤ) : ℚ) / (total : ℚ) * 100 = 0 := by
      rw [Int.cast_zero, zero_div, zero_mul]
    rw [h0]
    rfl
  · unfold percentage_of_total_logs
    rw [if_neg ht0, div_self htq, one_mul]
    rfl

/-- C6 witness: the theorem applied at matched = 45, total = 300. -/
theorem percentage_matches_rounding_formula_witness :
    percentage_of_total_logs 45 300
      = .ok (py_round2 (((45 : ℤ) : ℚ) / ((300 : ℤ) : ℚ) * 100))
    ∧ percentage_of_total_logs 0 300 = .ok 0
    ∧ percentage_of_total_logs 300 300 = .ok 100
    ∧ percentage_of_total_logs 45 300 = .ok 15 :=
  percentage_matches_rounding_formula 45 300 (by decide) (by decide)

/-- C7 counterexample: the text-match clause of the histogram search body
does not target the channel text field at all: the whole query section is
unchanged when the text field is replaced by an unrelated name (the field
appears only in the _source projection), and the must-clause list shows the
query_string clause carries nothing but the raw query text. -/
theorem text_clause_field_free_counterexample :
    (search_body "refund and delay" ("2024-01-01", "2024-01-31") "called_at" "utterance").lookup "query"
      = (search_body "refund and delay" ("2024-01-01", "2024-01-31") "called_at" "entirely_unrelated").lookup "query"
    ∧ mustClauses (search_body "refund and delay" ("2024-01-01", "2024-01-31") "called_at" "utterance")
      = some (.arr [.obj [("query_string", .obj [("query", .str "refund and delay")])],
          .obj [("range", .obj [("called_at", .obj [("gte", .str "2024-01-01"), ("lt", .str "2024-01-31")])])]]) :=
  ⟨by rfl, by rfl⟩

/-- C7 (amended): the histogram search body is a boolean-AND of exactly two
clauses — a query_string text-match clause carrying the expression string
but naming NO document field (the channel text field appears only in the
_source projection), and a range clause on the timestamp field with
gte = start and lt = end as ISO-8601 date strings — plus a date_histogram
aggregation on the timestamp field with fixed 1d interval; the range built
from (2024-01-01, 2024-01-31) serializes to "2024-01-01"/"2024-01-31". -/
theorem search_body_shape (q : String) (ds de : Date) (rk fm : String) :
    mustClauses (search_body q (pick_date_range ds de) rk fm)
      = some (.arr [query_string_clause q, range_clause rk ds.isoformat de.isoformat])
    ∧ (search_body q (pick_date_range ds de) rk fm).lookup "aggs"
      = some (.obj [("daily_logs", .obj [("date_histogram", .obj [
          ("field", .str rk), ("fixed_interval", .str "1d")])])])
    ∧ pick_date_range ⟨2024, 1, 1⟩ ⟨2024, 1, 31⟩ = ("2024-01-01", "2024-01-31") :=
  ⟨by rfl, by rfl, by rfl⟩

/-- C8: the cardinality query bodies contain the text-match clause exactly
when the text filter is included (cardinality_matched_body) and only the
range clause when it is not (cardinality_all_body), and both request a
cardinality aggregation over the .keyword exact-match sub-field of the
text field. -/
theorem cardinality_body_shape (q : String) (date_range : String × String)
    (rk fm : String) (include_text_filter : Bool) :
    mustClauses (if include_text_filter then cardinality_matched_body q date_range rk fm
        else cardinality_all_body date_range rk fm)
      = some (.arr (if include_text_filter
          then [query_string_clause q, range_clause rk date_range.1 date_range.2]
          else [range_clause rk date_range.1 date_range.2]))
    ∧ cardAggFieldVal (if include_text_filter then cardinality_matched_body q date_range rk fm
        else cardinality_all_body date_range rk fm)
      = some (.str (fm ++ ".keyword")) := by
  cases include_text_filter <;> exact ⟨by rfl, by rfl⟩

/-- C9: the histogram maps each day bucket key string to its document
count: with distinct bucket keys (as a date_histogram returns) the result
is exactly the bucket list in backend order; the key list of the result is
unique for EVERY bucket list; and an empty bucket list yields the empty
mapping, not a failure. -/
theorem histogram_preserves_bucket_order (buckets : List Bucket)
    (h : (buckets.map Bucket.key_as_string).Nodup) :
    histogram_from_buckets buckets = buckets.map (fun b => (b.key_as_string, b.doc_count))
    ∧ (∀ bs : List Bucket, ((histogram_from_buckets bs).map Prod.fst).Nodup)
    ∧ obtain_matching_logs (mkConstClient [] 0) "transcriptions_index" "refund and delay"
        ("2024-01-01", "2024-01-31") "called_at" "utterance" = .ok [] := by
  refine ⟨?_, ?_, by rfl⟩
  · have hx := foldl_dictInsert_append buckets [] (by intro b _; simp) h
    simpa [histogram_from_buckets] using hx
  · intro bs
    exact foldl_dictInsert_keys_nodup bs [] (by simp)

/-- C9 witness: the theorem applied to a concrete two-bucket response. -/
theorem histogram_preserves_bucket_order_witness :
    histogram_from_buckets [⟨"2024-01-01", 3⟩, ⟨"2024-01-02", 5⟩]
      = [("2024-01-01", 3), ("2024-01-02", 5)] :=
  (histogram_preserves_bucket_order [⟨"2024-01-01", 3⟩, ⟨"2024-01-02", 5⟩] (by decide)).1

/-- C10: the all-logs cardinality query ignores its query-string argument
entirely: its body (cardinality_all_body) does not mention the argument, so
two runs with any two query strings, against the same client, index, range
and fields, are one and the same computation. -/
theorem total_cardinality_ignores_query (es : EsClient) (index_name q1 q2 : String)
    (date_range : String × String) (range_keyword field_main : String) :
    cardinality_all_logs es index_name q1 date_range range_keyword field_main
      = cardinality_all_logs es index_name q2 date_range range_keyword field_main := rfl
